import Mathlib

/-!
Verification of the InvestingChecker decision engine.

The numeric core of `InvestingChecker.py` is embedded shallowly over `ℚ`:
every pure function of the source is translated to a Lean definition of the
same name, with Python's `a if c else b` and sequential reassignment of the
`recommendation` accumulator rendered as `if`-expressions and shadowing
`let`-bindings.  Optional (possibly-`None`) fields are `Option ℚ`; Python's
truthiness test `not x` on an optional number is the predicate `pyFalsy`.
-/

namespace InvestingChecker

/-- One income statement as consumed by `get_fundamental_score`: the
`revenue` and `netIncome` fields of a Financial Modeling Prep record,
each possibly absent. -/
structure IncomeStatement where
  revenue : Option ℚ
  netIncome : Option ℚ
deriving DecidableEq, Repr

/-- Python falsiness of an optional number: `not x` is true when `x` is
`None` or equal to `0`. -/
def pyFalsy : Option ℚ → Bool
  | none => true
  | some v => v == 0

/-- Embedding of `get_fundamental_score` (src/InvestingChecker.py lines 42-72),
restricted to its pure part: the two most recent income statements, ordered
latest-first, are already fetched and given as the list `data`. -/
def get_fundamental_score (data : List IncomeStatement) : ℚ :=
  match data with
  | latest :: previous :: _ =>
    if pyFalsy latest.revenue || pyFalsy previous.revenue
        || (previous.revenue == some 0) || (latest.netIncome == none) then 0.5
    else
      match latest.revenue, previous.revenue, latest.netIncome with
      | some revenue_latest, some revenue_previous, some net_income_latest =>
        let revenue_growth := (revenue_latest - revenue_previous) / revenue_previous
        let profit_margin := if revenue_latest ≠ 0 then net_income_latest / revenue_latest else 0
        let normalized_profit_margin := max 0 (min 1 profit_margin)
        let normalized_revenue_growth := max 0 (min 1 revenue_growth)
        (normalized_profit_margin + normalized_revenue_growth) / 2
      | _, _, _ => 0.5
  | _ => 0.5

/-- Embedding of `calculate_technical_chance_of_winning`
(src/InvestingChecker.py lines 74-82). -/
def calculate_technical_chance_of_winning (current_price target_price stop_loss : ℚ) : ℚ :=
  let stop_loss_distance := |current_price - stop_loss|
  let target_distance := |target_price - current_price|
  if stop_loss_distance + target_distance = 0 then 0.5
  else stop_loss_distance / (stop_loss_distance + target_distance)

/-- Embedding of `calculate_composite_chance_of_winning`
(src/InvestingChecker.py lines 84-92); the Python defaults
`w_tech=0.7, w_fund=0.3` are passed explicitly. -/
def calculate_composite_chance_of_winning
    (current_price target_price stop_loss fundamental_score w_tech w_fund : ℚ) : ℚ :=
  let technical_chance := calculate_technical_chance_of_winning current_price target_price stop_loss
  let composite_chance := w_tech * technical_chance + w_fund * fundamental_score
  composite_chance

/-- Embedding of `calculate_expectancy` (src/InvestingChecker.py lines 94-100). -/
def calculate_expectancy (current_price target_price stop_loss chance_of_winning : ℚ) : ℚ :=
  chance_of_winning * (target_price - current_price)
    - (1 - chance_of_winning) * (current_price - stop_loss)

/-- Embedding of `final_decision` (src/InvestingChecker.py lines 102-119); the
Python defaults `chance_threshold=0.55, expectancy_threshold=0` are passed
explicitly. -/
def final_decision
    (composite_chance expectancy chance_threshold expectancy_threshold : ℚ) : String :=
  if composite_chance ≥ chance_threshold ∧ expectancy > expectancy_threshold then "Buy"
  else if composite_chance < chance_threshold ∧ expectancy < expectancy_threshold then "Sell"
  else "Hold"

/-- The day-range ratio computed inside `evaluate_stock_for_trade`
(src/InvestingChecker.py lines 147-150), with the `0.5` fallback taken when
the day range is zero. -/
def price_to_day_low_ratio (current_price day_high day_low : ℚ) : ℚ :=
  if day_high - day_low ≠ 0 then (current_price - day_low) / (day_high - day_low)
  else 0.5

/-- Embedding of `evaluate_stock_for_trade` (src/InvestingChecker.py
lines 121-158): the mutable `recommendation` variable becomes shadowing
`let`-bindings, one per rule, applied in the source's order. -/
def evaluate_stock_for_trade
    (current_price market_cap day_high day_low price_avg50 price_avg200 : ℚ) : String :=
  let recommendation := "Hold"
  let recommendation := if market_cap < 1000000000 then "Sell" else recommendation
  let recommendation := if current_price > price_avg50 then recommendation else "Sell"
  let recommendation := if current_price > price_avg200 then recommendation else "Sell"
  let ratio := price_to_day_low_ratio current_price day_high day_low
  let recommendation :=
    if ratio < 0.3 then "Buy"
    else if ratio > 0.7 then "Sell"
    else recommendation
  recommendation

/-- C1: With the default thresholds `chance_threshold = 0.55` and
`expectancy_threshold = 0`, `final_decision` returns `"Buy"` iff
`composite_chance ≥ 0.55` and `expectancy > 0`, returns `"Sell"` iff
`composite_chance < 0.55` and `expectancy < 0`, and returns `"Hold"` in
every other combination; in particular the four boundary evaluations of the
spec hold. -/
theorem final_decision_default_thresholds :
    (∀ cc e : ℚ,
      (final_decision cc e 0.55 0 = "Buy" ↔ cc ≥ 0.55 ∧ e > 0) ∧
      (final_decision cc e 0.55 0 = "Sell" ↔ cc < 0.55 ∧ e < 0) ∧
      (final_decision cc e 0.55 0 = "Hold" ↔ ¬(cc ≥ 0.55 ∧ e > 0) ∧ ¬(cc < 0.55 ∧ e < 0))) ∧
    final_decision 0.55 0.0001 0.55 0 = "Buy" ∧
    final_decision 0.55 0 0.55 0 = "Hold" ∧
    final_decision 0.54 (-0.0001) 0.55 0 = "Sell" ∧
    final_decision 0.54 0.0001 0.55 0 = "Hold" := by
  refine ⟨fun cc e => ?_, ?_, ?_, ?_, ?_⟩
  · unfold final_decision
    split_ifs with h1 h2 <;> simp_all
  all_goals norm_num [final_decision]

/-- C3: `calculate_technical_chance_of_winning` returns `0.5` exactly when
`|current - stop_loss| + |target - current| = 0`, otherwise the ratio
`|current - stop_loss| / (|current - stop_loss| + |target - current|)`, and
its value always lies in `[0, 1]`. -/
theorem technical_chance_value_and_bounds (current target stop_loss : ℚ) :
    calculate_technical_chance_of_winning current target stop_loss =
      (if |current - stop_loss| + |target - current| = 0 then 0.5
       else |current - stop_loss| / (|current - stop_loss| + |target - current|)) ∧
    0 ≤ calculate_technical_chance_of_winning current target stop_loss ∧
    calculate_technical_chance_of_winning current target stop_loss ≤ 1 := by
  have hs : (0:ℚ) ≤ |current - stop_loss| := abs_nonneg _
  have ht : (0:ℚ) ≤ |target - current| := abs_nonneg _
  refine ⟨rfl, ?_, ?_⟩ <;>
  · simp only [calculate_technical_chance_of_winning]
    split_ifs with h
    · norm_num
    · have hpos : 0 < |current - stop_loss| + |target - current| :=
        lt_of_le_of_ne (by linarith) (Ne.symm h)
      first
        | exact div_nonneg hs (le_of_lt hpos)
        | exact (div_le_one hpos).mpr (by linarith)

/-- C5: With the default weights `0.7` and `0.3`, the composite chance is
exactly `0.7 * technical_chance + 0.3 * fundamental_score` for every
fundamental score in `[0, 1]`. -/
theorem composite_chance_identity (current target stop_loss f : ℚ)
    (hf0 : 0 ≤ f) (hf1 : f ≤ 1) :
    calculate_composite_chance_of_winning current target stop_loss f 0.7 0.3 =
      0.7 * calculate_technical_chance_of_winning current target stop_loss + 0.3 * f := rfl

/-- Witness for C5 at a concrete input. -/
theorem composite_chance_identity_witness :
    calculate_composite_chance_of_winning 100 110 95 0.5 0.7 0.3 =
      0.7 * calculate_technical_chance_of_winning 100 110 95 + 0.3 * 0.5 :=
  composite_chance_identity 100 110 95 0.5 (by norm_num) (by norm_num)

/-- C6: `calculate_expectancy` returns
`chance * (target - current) - (1 - chance) * (current - stop_loss)`; at
`chance = 1` this is `target - current` and at `chance = 0` it is
`-(current - stop_loss)`. -/
theorem expectancy_formula (current target stop_loss chance : ℚ) :
    calculate_expectancy current target stop_loss chance =
      chance * (target - current) - (1 - chance) * (current - stop_loss) ∧
    calculate_expectancy current target stop_loss 1 = target - current ∧
    calculate_expectancy current target stop_loss 0 = -(current - stop_loss) := by
  refine ⟨rfl, ?_, ?_⟩ <;> (unfold calculate_expectancy; ring)

/-- Modelled from the spec's own reformulation (design note in section 9):
the rule cascade of `evaluate_stock_for_trade` as an ordered list of
transition rules on the current recommendation label, to be folded
left-to-right over the accumulator `"Hold"`. -/
def trade_rules (current_price market_cap day_high day_low price_avg50 price_avg200 : ℚ) :
    List (String → String) :=
  [fun r => if market_cap < 1000000000 then "Sell" else r,
   fun r => if current_price ≤ price_avg50 then "Sell" else r,
   fun r => if current_price ≤ price_avg200 then "Sell" else r,
   fun r =>
     let range_ratio := price_to_day_low_ratio current_price day_high day_low
     if range_ratio < 0.3 then "Buy"
     else if range_ratio > 0.7 then "Sell"
     else r]

/-- C4: `evaluate_stock_for_trade` is exactly the left-to-right fold of the
four ordered rules over the accumulator `"Hold"`: small market cap sets Sell,
price at or below each moving average sets Sell, and the day-range rule,
evaluated last, sets Buy below ratio 0.3, Sell above 0.7, and otherwise
leaves the earlier verdict standing. -/
theorem evaluate_stock_for_trade_is_rule_fold
    (current_price market_cap day_high day_low price_avg50 price_avg200 : ℚ) :
    evaluate_stock_for_trade current_price market_cap day_high day_low price_avg50 price_avg200 =
      (trade_rules current_price market_cap day_high day_low price_avg50 price_avg200).foldl
        (fun acc rule => rule acc) "Hold" := by
  simp only [evaluate_stock_for_trade, trade_rules, List.foldl]
  split_ifs <;> first | rfl | linarith

/-- C7: Holding `current` and `target` fixed (hence the target distance
`|target - current|` fixed), the technical chance is monotone in the
stop-loss distance: if `(current, target, stop_loss₁)` are not all equal and
`|current - stop_loss₁| ≤ |current - stop_loss₂|`, the chance at
`stop_loss₂` is at least the chance at `stop_loss₁`. -/
theorem technical_chance_monotone_in_stop_distance
    (current target s₁ s₂ : ℚ)
    (hnd : ¬(current = target ∧ current = s₁))
    (h : |current - s₁| ≤ |current - s₂|) :
    calculate_technical_chance_of_winning current target s₁ ≤
      calculate_technical_chance_of_winning current target s₂ := by
  have ha : (0:ℚ) ≤ |current - s₁| := abs_nonneg _
  have hb : (0:ℚ) ≤ |current - s₂| := abs_nonneg _
  have hk : (0:ℚ) ≤ |target - current| := abs_nonneg _
  have hsum : |current - s₁| + |target - current| ≠ 0 := by
    intro h0
    have h1 : |current - s₁| = 0 := by linarith [abs_nonneg (current - s₁), abs_nonneg (target - current)]
    have h2 : |target - current| = 0 := by linarith
    exact hnd ⟨(sub_eq_zero.mp (abs_eq_zero.mp h2)).symm, (sub_eq_zero.mp (abs_eq_zero.mp h1))⟩
  have hpos₁ : 0 < |current - s₁| + |target - current| := lt_of_le_of_ne (by linarith) (Ne.symm hsum)
  have hpos₂ : 0 < |current - s₂| + |target - current| := by linarith
  simp only [calculate_technical_chance_of_winning]
  rw [if_neg hsum, if_neg (by linarith : ¬ |current - s₂| + |target - current| = 0)]
  rw [div_le_div_iff hpos₁ hpos₂]
  nlinarith [mul_le_mul_of_nonneg_right h hk]

/-- Witness for C7 at a concrete input. -/
theorem technical_chance_monotone_in_stop_distance_witness :
    calculate_technical_chance_of_winning 100 110 95 ≤
      calculate_technical_chance_of_winning 100 110 90 :=
  technical_chance_monotone_in_stop_distance 100 110 95 90 (by norm_num)
    (by norm_num)

/-- Division as a fallible operation: `none` exactly when the denominator is
zero, the way an unguarded Python division would raise `ZeroDivisionError`. -/
def divOpt (a b : ℚ) : Option ℚ := if b = 0 then none else some (a / b)

/-- The body of `calculate_technical_chance_of_winning` with its one division
made fallible, guard and fallback as in the source. -/
def calculate_technical_chance_of_winning_checked
    (current_price target_price stop_loss : ℚ) : Option ℚ :=
  let stop_loss_distance := |current_price - stop_loss|
  let target_distance := |target_price - current_price|
  if stop_loss_distance + target_distance = 0 then some 0.5
  else divOpt stop_loss_distance (stop_loss_distance + target_distance)

/-- The day-range ratio of `evaluate_stock_for_trade` with its one division
made fallible, guard and fallback as in the source. -/
def price_to_day_low_ratio_checked (current_price day_high day_low : ℚ) : Option ℚ :=
  if day_high - day_low ≠ 0 then divOpt (current_price - day_low) (day_high - day_low)
  else some 0.5

/-- C8: Neither degenerate-geometry case divides by zero: on every input the
fallible versions of the technical chance and of the day-range ratio succeed
and return exactly the value of the total functions, because each guard
routes the zero-denominator case to the explicit `0.5` fallback. -/
theorem no_division_by_zero
    (current target stop_loss day_high day_low : ℚ) :
    calculate_technical_chance_of_winning_checked current target stop_loss =
      some (calculate_technical_chance_of_winning current target stop_loss) ∧
    price_to_day_low_ratio_checked current day_high day_low =
      some (price_to_day_low_ratio current day_high day_low) := by
  constructor
  · simp only [calculate_technical_chance_of_winning_checked,
      calculate_technical_chance_of_winning, divOpt]
    split_ifs <;> simp_all
  · simp only [price_to_day_low_ratio_checked, price_to_day_low_ratio, divOpt]
    split_ifs <;> simp_all

/-- C9: Whenever the latest period's revenue is exactly `0`, even with a
nonzero previous revenue and a present latest net income, the fundamental
score is the neutral `0.5`: zero latest revenue is falsy in Python and trips
the same guard as missing data. -/
theorem fundamental_score_zero_latest_revenue
    (rp ni : ℚ) (previous_net_income : Option ℚ) (rest : List IncomeStatement)
    (hrp : rp ≠ 0) :
    get_fundamental_score
      (⟨some 0, some ni⟩ :: ⟨some rp, previous_net_income⟩ :: rest) = 0.5 := by
  simp [get_fundamental_score, pyFalsy]

/-- Witness for C9 at a concrete input. -/
theorem fundamental_score_zero_latest_revenue_witness :
    get_fundamental_score (⟨some 0, some 50⟩ :: ⟨some 100, some 10⟩ :: []) = 0.5 :=
  fundamental_score_zero_latest_revenue 100 50 (some 10) [] (by norm_num)

/-- The quote snapshot hands `marketCap` over as-is, so it may be absent;
Python then evaluates `market_cap < 1000000000` first and a `None` operand
raises a `TypeError` (modelled as `none`) instead of producing any
recommendation. -/
def evaluate_stock_for_trade_snapshot (current_price : ℚ) (market_cap : Option ℚ)
    (day_high day_low price_avg50 price_avg200 : ℚ) : Option String :=
  match market_cap with
  | none => none
  | some mc =>
    some (evaluate_stock_for_trade current_price mc day_high day_low price_avg50 price_avg200)

/-- C10: The evaluator is total only when a numeric market cap is present:
with `market_cap` absent it produces no recommendation at all, and with a
numeric market cap it always returns one of `"Buy"`, `"Sell"`, `"Hold"`. -/
theorem evaluate_requires_market_cap :
    (∀ current day_high day_low avg50 avg200 : ℚ,
      evaluate_stock_for_trade_snapshot current none day_high day_low avg50 avg200 = none) ∧
    (∀ current mc day_high day_low avg50 avg200 : ℚ,
      evaluate_stock_for_trade_snapshot current (some mc) day_high day_low avg50 avg200 =
        some (evaluate_stock_for_trade current mc day_high day_low avg50 avg200) ∧
      (evaluate_stock_for_trade current mc day_high day_low avg50 avg200 = "Buy" ∨
       evaluate_stock_for_trade current mc day_high day_low avg50 avg200 = "Sell" ∨
       evaluate_stock_for_trade current mc day_high day_low avg50 avg200 = "Hold")) := by
  refine ⟨fun _ _ _ _ _ => rfl, fun current mc day_high day_low avg50 avg200 => ⟨rfl, ?_⟩⟩
  simp only [evaluate_stock_for_trade]
  split_ifs <;> simp

/-- The fundamental score exactly as claim C2 words it: the neutral `0.5`
only when fewer than two periods are available, a required field is missing,
the earlier period's revenue is zero, or the latest net income is
unavailable; in every other case the arithmetic mean of the clamped revenue
growth and the clamped profit margin. -/
def fundamental_score_per_claim (data : List IncomeStatement) : ℚ :=
  match data with
  | latest :: previous :: _ =>
    match latest.revenue, previous.revenue, latest.netIncome with
    | some revenue_latest, some revenue_previous, some net_income_latest =>
      if revenue_previous = 0 then 0.5
      else
        (max 0 (min 1 ((revenue_latest - revenue_previous) / revenue_previous))
          + max 0 (min 1 (net_income_latest / revenue_latest))) / 2
    | _, _, _ => 0.5
  | _ => 0.5

/-- C2 counterexample: with latest revenue `0`, previous revenue `100` and
latest net income `50`, none of the fallback conditions the claim lists
holds, so the claim predicts the clamped mean `0`, but the code returns the
neutral `0.5`: the zero-latest-revenue guard is a fallback trigger the claim
omits. -/
theorem fundamental_score_claim_counterexample :
    get_fundamental_score [⟨some 0, some 50⟩, ⟨some 100, some 10⟩] = 0.5 ∧
    fundamental_score_per_claim [⟨some 0, some 50⟩, ⟨some 100, some 10⟩] = 0 ∧
    get_fundamental_score [⟨some 0, some 50⟩, ⟨some 100, some 10⟩] ≠
      fundamental_score_per_claim [⟨some 0, some 50⟩, ⟨some 100, some 10⟩] := by
  refine ⟨?_, ?_, ?_⟩ <;>
    norm_num [get_fundamental_score, fundamental_score_per_claim, pyFalsy]

/-- The fundamental score as claim C2 reads once amended: a zero revenue in
EITHER period (not just the earlier one) also triggers the neutral `0.5`. -/
def fundamental_score_per_amended_claim (data : List IncomeStatement) : ℚ :=
  match data with
  | latest :: previous :: _ =>
    match latest.revenue, previous.revenue, latest.netIncome with
    | some revenue_latest, some revenue_previous, some net_income_latest =>
      if revenue_latest = 0 ∨ revenue_previous = 0 then 0.5
      else
        (max 0 (min 1 ((revenue_latest - revenue_previous) / revenue_previous))
          + max 0 (min 1 (net_income_latest / revenue_latest))) / 2
    | _, _, _ => 0.5
  | _ => 0.5

/-- C2 amended: the fundamental score is `0.5` when fewer than two periods
are available, a required field is missing, either period's revenue is zero,
or the latest net income is unavailable; otherwise it is the mean of the
independently clamped revenue growth and profit margin, and in every case
the score lies in `[0, 1]`. -/
theorem fundamental_score_characterization (data : List IncomeStatement) :
    get_fundamental_score data = fundamental_score_per_amended_claim data ∧
    0 ≤ get_fundamental_score data ∧ get_fundamental_score data ≤ 1 := by
  have hclamp0 : ∀ x : ℚ, 0 ≤ max 0 (min 1 x) := fun x => le_max_left 0 _
  have hclamp1 : ∀ x : ℚ, max 0 (min 1 x) ≤ 1 :=
    fun x => max_le (by norm_num) (min_le_left 1 x)
  rcases data with _ | ⟨⟨rlo, nio⟩, _ | ⟨⟨rpo, pnio⟩, rest⟩⟩
  · exact ⟨rfl, by norm_num [get_fundamental_score]⟩
  · exact ⟨rfl, by norm_num [get_fundamental_score]⟩
  rcases rlo with _ | rl <;> rcases rpo with _ | rp <;> rcases nio with _ | ni <;>
    simp only [get_fundamental_score, fundamental_score_per_amended_claim, pyFalsy,
      Bool.or_eq_true, beq_iff_eq, Option.some.injEq, reduceCtorEq, ite_self] <;>
    try exact ⟨trivial, by norm_num⟩
  by_cases hrl : rl = 0 <;> by_cases hrp : rp = 0
  · exact ⟨by simp [hrl, hrp], by norm_num [hrl, hrp]⟩
  · exact ⟨by simp [hrl], by norm_num [hrl]⟩
  · exact ⟨by simp [hrp], by norm_num [hrp]⟩
  have h1 := hclamp0 ((rl - rp) / rp)
  have h2 := hclamp1 ((rl - rp) / rp)
  have h3 := hclamp0 (ni / rl)
  have h4 := hclamp1 (ni / rl)
  refine ⟨?_, ?_, ?_⟩
  · simp only [hrl, hrp, or_self, or_false, false_or, if_false, ne_eq,
      not_false_eq_true, if_true, ite_false, ite_true]
    ring
  · simp only [hrl, hrp, or_self, or_false, false_or, ne_eq,
      not_false_eq_true, ite_false, ite_true]
    linarith
  · simp only [hrl, hrp, or_self, or_false, false_or, ne_eq,
      not_false_eq_true, ite_false, ite_true]
    linarith

end InvestingChecker
